import Mathlib

/-!
Verification of the outbound message pipeline of the fe-web gateway
(`fe-web-utils.c`): JSON escaping, message-ID generation, the message
type table, JSON serialization, the gated send pipeline and the fanout
loops.  Definitions are shallow embeddings of the C functions; strings
are modelled as Lean strings (the C code processes bytes of UTF-8 text,
and every byte the escaper treats specially is a single-byte code point,
so char-wise and byte-wise processing agree on UTF-8 input).
-/

/-! ## Escaper: `fe_web_escape_json` -/

/-- Embedding of the `switch` body of `fe_web_escape_json` for one input
character: `"` and `\` get backslash escapes, the five named control
characters get their short escapes, other characters below 32 are
rendered `\u00XX` with two lowercase hex digits (`%04x` of a value
below 32), and everything else passes through unchanged. -/
def escapeChar (c : Char) : List Char :=
  if c = '"' then ['\\', '"']
  else if c = '\\' then ['\\', '\\']
  else if c = '\x08' then ['\\', 'b']
  else if c = '\x0c' then ['\\', 'f']
  else if c = '\n' then ['\\', 'n']
  else if c = '\r' then ['\\', 'r']
  else if c = '\t' then ['\\', 't']
  else if c.toNat < 32 then
    ['\\', 'u', '0', '0', Nat.digitChar (c.toNat / 16), Nat.digitChar (c.toNat % 16)]
  else [c]

/-- Loop of `fe_web_escape_json` over the characters of the input. -/
def escapeChars : List Char → List Char
  | [] => []
  | c :: rest => escapeChar c ++ escapeChars rest

/-- Embedding of `fe_web_escape_json`: `NULL` input (modelled as `none`)
yields the empty string, otherwise each character is escaped in turn. -/
def fe_web_escape_json : Option String → String
  | none => ""
  | some s => String.mk (escapeChars s.data)

/-- Modelled from the spec: value of one short escape character in a
conforming JSON string decoder (the decoder itself is not part of the
repository; the round-trip claim compares the escaper against standard
JSON string decoding). -/
def escapeCharDe (e : Char) : Option Char :=
  if e = '"' then some '"'
  else if e = '\\' then some '\\'
  else if e = '/' then some '/'
  else if e = 'b' then some '\x08'
  else if e = 'f' then some '\x0c'
  else if e = 'n' then some '\n'
  else if e = 'r' then some '\r'
  else if e = 't' then some '\t'
  else none

/-- Modelled from the spec: hexadecimal digit value as read by a JSON
`\uXXXX` escape. -/
def hexVal (c : Char) : Option Nat :=
  if '0' ≤ c ∧ c ≤ '9' then some (c.toNat - 48)
  else if 'a' ≤ c ∧ c ≤ 'f' then some (c.toNat - 87)
  else if 'A' ≤ c ∧ c ≤ 'F' then some (c.toNat - 55)
  else none

/-- Modelled from the spec: a conforming JSON string-content decoder.
It fails on an unescaped quote, an unescaped backslash followed by an
invalid escape, a truncated escape, or a raw control character, and
otherwise decodes `\"`, `\\`, `\/`, `\b`, `\f`, `\n`, `\r`, `\t` and
`\uXXXX` to the corresponding characters. -/
def jsonStringDecode : List Char → Option (List Char)
  | [] => some []
  | c :: rest =>
    if c = '\\' then
      match rest with
      | [] => none
      | e :: rest2 =>
        if e = 'u' then
          match rest2 with
          | h1 :: h2 :: h3 :: h4 :: rest3 =>
            match hexVal h1, hexVal h2, hexVal h3, hexVal h4 with
            | some a, some b, some v, some d =>
              (jsonStringDecode rest3).map
                (fun l => Char.ofNat (((a * 16 + b) * 16 + v) * 16 + d) :: l)
            | _, _, _, _ => none
          | _ => none
        else
          match escapeCharDe e with
          | some c2 => (jsonStringDecode rest2).map (fun l => c2 :: l)
          | none => none
    else if c = '"' ∨ c.toNat < 32 then none
    else (jsonStringDecode rest).map (fun l => c :: l)

/-! ## ID generator: `fe_web_generate_message_id` -/

/-- Rendering of `%04d` for an argument in the range 0–9999: exactly
four zero-padded decimal digits.  The generator's counter never leaves
this range (it starts at 0 and wraps before reaching 10000). -/
def pad4 (n : Nat) : String :=
  String.mk [Nat.digitChar (n / 1000 % 10), Nat.digitChar (n / 100 % 10),
             Nat.digitChar (n / 10 % 10), Nat.digitChar (n % 10)]

/-- Embedding of `fe_web_generate_message_id`.  The hidden `static int
counter` is passed explicitly and the updated counter is returned: the
id is `"<now>-<counter padded to 4 digits>"`, and the counter is
incremented, wrapping to 0 when it reaches 10000. -/
def fe_web_generate_message_id (now : Int) (counter : Nat) : String × Nat :=
  (toString now ++ "-" ++ pad4 counter,
   if counter + 1 ≥ 10000 then 0 else counter + 1)

/-- Successive calls of the generator within one wall-clock second:
`idsFrom now c k` is the list of ids returned by `k` consecutive calls
starting from counter state `c`. -/
def idsFrom (now : Int) (counter : Nat) : Nat → List String
  | 0 => []
  | k + 1 =>
    (fe_web_generate_message_id now counter).1 ::
      idsFrom now (fe_web_generate_message_id now counter).2 k

/-- Counter update of one generator call, for reasoning about iterated
calls. -/
def counterStep (c : Nat) : Nat := if c + 1 ≥ 10000 then 0 else c + 1

/-! ## Message type table: `fe_web_type_to_string` -/

/-- Embedding of the `WEB_MESSAGE_TYPE` enum: the 23 variants handled
by `fe_web_type_to_string` (the C `switch` also has a `default` arm
returning `"unknown"`, unreachable for these variants). -/
inductive WEB_MESSAGE_TYPE where
  | WEB_MSG_AUTH_OK
  | WEB_MSG_MESSAGE
  | WEB_MSG_SERVER_STATUS
  | WEB_MSG_CHANNEL_JOIN
  | WEB_MSG_CHANNEL_PART
  | WEB_MSG_CHANNEL_KICK
  | WEB_MSG_USER_QUIT
  | WEB_MSG_TOPIC
  | WEB_MSG_CHANNEL_MODE
  | WEB_MSG_NICKLIST
  | WEB_MSG_NICKLIST_UPDATE
  | WEB_MSG_NICK_CHANGE
  | WEB_MSG_USER_MODE
  | WEB_MSG_AWAY
  | WEB_MSG_WHOIS
  | WEB_MSG_CHANNEL_LIST
  | WEB_MSG_STATE_DUMP
  | WEB_MSG_ERROR
  | WEB_MSG_PONG
  | WEB_MSG_QUERY_OPENED
  | WEB_MSG_QUERY_CLOSED
  | WEB_MSG_ACTIVITY_UPDATE
  | WEB_MSG_MARK_READ
  deriving DecidableEq, Fintype

/-- Embedding of `fe_web_type_to_string`. -/
def fe_web_type_to_string : WEB_MESSAGE_TYPE → String
  | .WEB_MSG_AUTH_OK => "auth_ok"
  | .WEB_MSG_MESSAGE => "message"
  | .WEB_MSG_SERVER_STATUS => "server_status"
  | .WEB_MSG_CHANNEL_JOIN => "channel_join"
  | .WEB_MSG_CHANNEL_PART => "channel_part"
  | .WEB_MSG_CHANNEL_KICK => "channel_kick"
  | .WEB_MSG_USER_QUIT => "user_quit"
  | .WEB_MSG_TOPIC => "topic"
  | .WEB_MSG_CHANNEL_MODE => "channel_mode"
  | .WEB_MSG_NICKLIST => "nicklist"
  | .WEB_MSG_NICKLIST_UPDATE => "nicklist_update"
  | .WEB_MSG_NICK_CHANGE => "nick_change"
  | .WEB_MSG_USER_MODE => "user_mode"
  | .WEB_MSG_AWAY => "away"
  | .WEB_MSG_WHOIS => "whois"
  | .WEB_MSG_CHANNEL_LIST => "channel_list"
  | .WEB_MSG_STATE_DUMP => "state_dump"
  | .WEB_MSG_ERROR => "error"
  | .WEB_MSG_PONG => "pong"
  | .WEB_MSG_QUERY_OPENED => "query_opened"
  | .WEB_MSG_QUERY_CLOSED => "query_closed"
  | .WEB_MSG_ACTIVITY_UPDATE => "activity_update"
  | .WEB_MSG_MARK_READ => "mark_read"

/-! ## Message model: `WEB_MESSAGE_REC` -/

/-- Embedding of `WEB_MESSAGE_REC`.  Optional C string fields (`char *`
that may be `NULL`) become `Option String`; the `extra_data` hash table
becomes an association list in iteration order. -/
structure WEB_MESSAGE_REC where
  type : WEB_MESSAGE_TYPE
  id : Option String
  timestamp : Int
  server_tag : Option String
  target : Option String
  nick : Option String
  text : Option String
  response_to : Option String
  level : Int
  is_own : Bool
  extra_data : List (String × String)
  deriving DecidableEq

/-- Embedding of `fe_web_message_new`: `g_new0` zeroes every field, so
all optional strings are absent, `level` is 0, `is_own` is false and the
extra map is empty; the timestamp is the current time, passed in. -/
def fe_web_message_new (type : WEB_MESSAGE_TYPE) (now : Int) : WEB_MESSAGE_REC :=
  { type := type, id := none, timestamp := now, server_tag := none, target := none,
    nick := none, text := none, response_to := none, level := 0, is_own := false,
    extra_data := [] }

/-! ## Serializer: `fe_web_message_to_json` -/

/-- Embedding of the two `g_string_append_printf` shapes for one
`extra_data` entry: the value is emitted raw when the key is `"params"`
and the value's first character is `[` (an empty C string has no first
character, so it is never raw), otherwise escaped and quoted; the key is
always escaped. -/
def extraEntryJson (k v : String) : String :=
  if k = "params" ∧ v.data.head? = some '[' then
    "\"" ++ fe_web_escape_json (some k) ++ "\":" ++ v
  else
    "\"" ++ fe_web_escape_json (some k) ++ "\":\"" ++ fe_web_escape_json (some v) ++ "\""

/-- Embedding of the `extra_data` iteration loop: a comma is emitted
before every entry except the first (the `first` flag of the C loop is
the Bool component of the fold state). -/
def extraBody (entries : List (String × String)) : String :=
  (entries.foldl
    (fun acc kv =>
      ((if acc.2 then acc.1 else acc.1 ++ ",") ++ extraEntryJson kv.1 kv.2, false))
    ("", true)).1

/-- Helper mirroring the C pattern `if (field != NULL)
g_string_append_printf(json, ...)`: append the rendering of an optional
field to the accumulated string when the field is present. -/
def appendOpt (json : String) (o : Option String) (f : String → String) : String :=
  match o with
  | some x => json ++ f x
  | none => json

/-- Helper mirroring `if (cond) g_string_append_printf(json, ...)`. -/
def appendIf (json : String) (b : Prop) [Decidable b] (s : String) : String :=
  if b then json ++ s else json

/-- Embedding of `fe_web_message_to_json`: the accumulating `GString`
is the chain of `let json := ...` rebindings, appended in source
order. -/
def fe_web_message_to_json (msg : WEB_MESSAGE_REC) : String :=
  let json := "\x7b"
  let json := appendOpt json msg.id
    (fun i => "\"id\":\"" ++ fe_web_escape_json (some i) ++ "\",")
  let json := json ++ "\"type\":\"" ++ fe_web_type_to_string msg.type ++ "\""
  let json := appendOpt json msg.response_to
    (fun r => ",\"response_to\":\"" ++ fe_web_escape_json (some r) ++ "\"")
  let json := appendOpt json msg.server_tag
    (fun s => ",\"server\":\"" ++ fe_web_escape_json (some s) ++ "\"")
  let json := appendOpt json msg.target
    (fun t => ",\"channel\":\"" ++ fe_web_escape_json (some t) ++ "\"")
  let json := appendOpt json msg.nick
    (fun n => ",\"nick\":\"" ++ fe_web_escape_json (some n) ++ "\"")
  let json := appendOpt json msg.text
    (fun t =>
      if msg.type = .WEB_MSG_NICKLIST_UPDATE then
        ",\"task\":\"" ++ fe_web_escape_json (some t) ++ "\""
      else
        ",\"text\":\"" ++ fe_web_escape_json (some t) ++ "\"")
  let json := json ++ ",\"timestamp\":" ++ toString msg.timestamp
  let json := appendIf json (msg.level ≠ 0) (",\"level\":" ++ toString msg.level)
  let json := appendIf json (msg.type = .WEB_MSG_MESSAGE)
    (",\"is_own\":" ++ if msg.is_own then "true" else "false")
  let json := appendIf json (msg.extra_data ≠ [])
    (",\"extra\":\x7b" ++ extraBody msg.extra_data ++ "\x7d")
  json ++ "\x7d"

/-! ## Spec-side field list (for the serializer contract) -/

/-- Rendering of one JSON field from its key and its already-rendered
value. -/
def renderField (kv : String × String) : String := "\"" ++ kv.1 ++ "\":" ++ kv.2

/-- Comma-separated join of the fields after the first. -/
def joinTail : List String → String
  | [] => ""
  | f :: rest => "," ++ f ++ joinTail rest

/-- Comma-separated join of a field list: commas appear only between
elements, never dangling. -/
def fieldsJoin : List String → String
  | [] => ""
  | f :: rest => f ++ joinTail rest

/-- Contribution of an optional field to the serialized string. -/
def optPart (o : Option String) (f : String → String) : String :=
  match o with
  | some x => f x
  | none => ""

/-- Modelled from the spec (section 4.4): the ordered list of
(key, rendered value) pairs that must appear in the serialized object,
each optional field present iff its condition holds. -/
def messageFieldPairs (msg : WEB_MESSAGE_REC) : List (String × String) :=
  (msg.id.map (fun i => ("id", "\"" ++ fe_web_escape_json (some i) ++ "\""))).toList ++
  [("type", "\"" ++ fe_web_type_to_string msg.type ++ "\"")] ++
  (msg.response_to.map
    (fun r => ("response_to", "\"" ++ fe_web_escape_json (some r) ++ "\""))).toList ++
  (msg.server_tag.map
    (fun s => ("server", "\"" ++ fe_web_escape_json (some s) ++ "\""))).toList ++
  (msg.target.map
    (fun t => ("channel", "\"" ++ fe_web_escape_json (some t) ++ "\""))).toList ++
  (msg.nick.map
    (fun n => ("nick", "\"" ++ fe_web_escape_json (some n) ++ "\""))).toList ++
  (msg.text.map
    (fun t =>
      ((if msg.type = .WEB_MSG_NICKLIST_UPDATE then "task" else "text"),
       "\"" ++ fe_web_escape_json (some t) ++ "\""))).toList ++
  [("timestamp", toString msg.timestamp)] ++
  (if msg.level ≠ 0 then [("level", toString msg.level)] else []) ++
  (if msg.type = .WEB_MSG_MESSAGE then
    [("is_own", if msg.is_own then "true" else "false")] else []) ++
  (if msg.extra_data ≠ [] then
    [("extra", "\x7b" ++ extraBody msg.extra_data ++ "\x7d")] else [])

/-- Modelled from the spec (section 4.4 item 11): rendering of one
extension-map entry — key escaped, value raw iff the key is `"params"`
and the value starts with `[`, otherwise escaped and quoted. -/
def extraEntrySpec (k v : String) : String :=
  "\"" ++ fe_web_escape_json (some k) ++ "\":" ++
    (if k = "params" ∧ v.data.head? = some '[' then v
     else "\"" ++ fe_web_escape_json (some v) ++ "\"")

/-! ## Sender: `fe_web_send_message` -/

/-- Client record as read by the sender and the fanout loops.  The
transport handle and the SSL channel are modelled by their presence
(`NULL` pointer or not); the bound server is a server identity. -/
structure WEB_CLIENT_REC where
  id : String
  authenticated : Bool
  handshake_done : Bool
  use_ssl : Bool
  encryption_enabled : Bool
  messages_sent : Nat
  handle : Option Unit
  ssl_channel : Option Unit
  server : Option Nat
  wants_all_servers : Bool
  deriving DecidableEq

/-- External capabilities consumed by the sender: key lookup,
encryption (`none` = failure), WebSocket framing (opcode, payload) and
the SSL write result (negative = failure). -/
structure SendCaps where
  get_key : Option (List Nat)
  encrypt : List Nat → List Nat → Option (List Nat)
  create_frame : Nat → List Nat → List Nat
  ssl_write : List Nat → Int

/-- One `printtext` call of the sender: which `%s` arguments the format
string carries (client identity, message type name), a tag identifying
the call site, and the serialized JSON payload when the format string
includes it. -/
structure LogLine where
  clientId : Option String
  typeName : String
  stage : String
  payload : Option String
  deriving DecidableEq

/-- Observable outcome of one `fe_web_send_message` call: the client
afterwards (`none` when the call was given no client), the bytes handed
to the transport (`none` when nothing was written), and the log lines
emitted in order. -/
structure SendResult where
  client : Option WEB_CLIENT_REC
  sent : Option (List Nat)
  logs : List LogLine
  deriving DecidableEq

/-- Bytes of the serialized JSON as handed to framing/encryption. -/
def strBytes (s : String) : List Nat := s.data.map Char.toNat

/-- Transmission step of `fe_web_send_message` (the `if (client->use_ssl
&& client->ssl_channel != NULL)` block): SSL write with abort on a
negative result, otherwise fire-and-forget plain write; on completion
the `Sent` notice is logged and `messages_sent` incremented. -/
def fe_web_transmit (client : WEB_CLIENT_REC) (caps : SendCaps) (type_str : String)
    (frame : List Nat) (logs : List LogLine) : SendResult :=
  if client.use_ssl = true ∧ client.ssl_channel ≠ none then
    if caps.ssl_write frame < 0 then
      { client := some client, sent := none,
        logs := logs ++ [⟨some client.id, type_str, "ssl_write_failed", none⟩] }
    else
      { client := some { client with messages_sent := client.messages_sent + 1 },
        sent := some frame,
        logs := logs ++ [⟨some client.id, type_str, "sent", none⟩] }
  else
    { client := some { client with messages_sent := client.messages_sent + 1 },
      sent := some frame,
      logs := logs ++ [⟨some client.id, type_str, "sent", none⟩] }

/-- Serialization/encryption/framing stage of `fe_web_send_message`,
reached after all gating passed: serialize, log the plaintext JSON
(`Sending` notice), then either encrypt into a binary frame (opcode 2),
aborting on a missing key or an encryption failure, or frame the
plaintext as a text frame (opcode 1). -/
def fe_web_send_pipeline (client : WEB_CLIENT_REC) (msg : WEB_MESSAGE_REC)
    (caps : SendCaps) (type_str : String) : SendResult :=
  let json := fe_web_message_to_json msg
  let logSending : LogLine := ⟨some client.id, type_str, "sending", some json⟩
  if client.encryption_enabled = true then
    match caps.get_key with
    | none =>
      { client := some client, sent := none,
        logs := [logSending, ⟨some client.id, type_str, "key_missing", none⟩] }
    | some key =>
      match caps.encrypt (strBytes json) key with
      | none =>
        { client := some client, sent := none,
          logs := [logSending, ⟨some client.id, type_str, "encrypt_failed", none⟩] }
      | some encrypted =>
        fe_web_transmit client caps type_str (caps.create_frame 2 encrypted)
          [logSending, ⟨some client.id, type_str, "encrypted", none⟩]
  else
    fe_web_transmit client caps type_str (caps.create_frame 1 (strBytes json)) [logSending]

/-- Embedding of `fe_web_send_message`: gating (NULL client; for
`auth_ok` only `handshake_done`, for every other type both
`authenticated` and `handshake_done`; NULL handle), then the pipeline.
Every abort path logs once and returns without transmitting. -/
def fe_web_send_message (client? : Option WEB_CLIENT_REC) (msg : WEB_MESSAGE_REC)
    (caps : SendCaps) : SendResult :=
  let type_str := fe_web_type_to_string msg.type
  match client? with
  | none =>
    { client := none, sent := none, logs := [⟨none, type_str, "client_null", none⟩] }
  | some client =>
    if msg.type ≠ .WEB_MSG_AUTH_OK then
      if client.authenticated = false ∨ client.handshake_done = false then
        { client := some client, sent := none,
          logs := [⟨some client.id, type_str, "not_ready", none⟩] }
      else if client.handle = none then
        { client := some client, sent := none,
          logs := [⟨some client.id, type_str, "handle_null", none⟩] }
      else fe_web_send_pipeline client msg caps type_str
    else
      if client.handshake_done = false then
        { client := some client, sent := none,
          logs := [⟨some client.id, type_str, "handshake_not_done", none⟩] }
      else if client.handle = none then
        { client := some client, sent := none,
          logs := [⟨some client.id, type_str, "handle_null", none⟩] }
      else fe_web_send_pipeline client msg caps type_str

/-! ## Fanout: `fe_web_send_to_server_clients`, `fe_web_send_to_all_clients` -/

/-- Loop body of `fe_web_send_to_server_clients`: one send per
authenticated client bound to the given server or wanting all
servers; the results are collected in registry order. -/
def sendToServerLoop (server : Nat) (msg : WEB_MESSAGE_REC) (caps : SendCaps) :
    List WEB_CLIENT_REC → List SendResult
  | [] => []
  | client :: rest =>
    if client.authenticated && (client.server == some server || client.wants_all_servers) then
      fe_web_send_message (some client) msg caps :: sendToServerLoop server msg caps rest
    else
      sendToServerLoop server msg caps rest

/-- Embedding of `fe_web_send_to_server_clients`: no-op on a NULL
server, otherwise one traversal of the registry. -/
def fe_web_send_to_server_clients (server? : Option Nat) (msg : WEB_MESSAGE_REC)
    (caps : SendCaps) (web_clients : List WEB_CLIENT_REC) : List SendResult :=
  match server? with
  | none => []
  | some server => sendToServerLoop server msg caps web_clients

/-- Loop body of `fe_web_send_to_all_clients`: one send per
authenticated client, regardless of server binding. -/
def sendToAllLoop (msg : WEB_MESSAGE_REC) (caps : SendCaps) :
    List WEB_CLIENT_REC → List SendResult
  | [] => []
  | client :: rest =>
    if client.authenticated then
      fe_web_send_message (some client) msg caps :: sendToAllLoop msg caps rest
    else
      sendToAllLoop msg caps rest

/-- Embedding of `fe_web_send_to_all_clients`. -/
def fe_web_send_to_all_clients (msg : WEB_MESSAGE_REC) (caps : SendCaps)
    (web_clients : List WEB_CLIENT_REC) : List SendResult :=
  sendToAllLoop msg caps web_clients

/-! ## Spec-side characterizations of the send pipeline -/

/-- Modelled from the spec (section 4.5 gating): the client is eligible
for the message type — for `auth_ok` only the handshake is required,
for every other type both flags — and has a transport handle. -/
def gateOk (client : WEB_CLIENT_REC) (msg : WEB_MESSAGE_REC) : Prop :=
  (if msg.type = .WEB_MSG_AUTH_OK then client.handshake_done = true
   else client.authenticated = true ∧ client.handshake_done = true) ∧
  client.handle ≠ none

/-- Modelled from the spec (section 4.5 pipeline): the frame that the
pipeline would hand to the transport — a binary frame of the ciphertext
when encryption is enabled (absent when the key is missing or
encryption fails), a text frame of the plaintext otherwise. -/
def pipelineFrame (client : WEB_CLIENT_REC) (msg : WEB_MESSAGE_REC)
    (caps : SendCaps) : Option (List Nat) :=
  let json := fe_web_message_to_json msg
  if client.encryption_enabled = true then
    match caps.get_key with
    | none => none
    | some key =>
      match caps.encrypt (strBytes json) key with
      | none => none
      | some encrypted => some (caps.create_frame 2 encrypted)
  else some (caps.create_frame 1 (strBytes json))

/-- Modelled from the spec (sections 4.5 and 7): a send succeeds iff
the client is present, gating passes, the pipeline produces a frame,
and — when the SSL path is taken — the SSL write does not fail. -/
def sendSpecOk (client? : Option WEB_CLIENT_REC) (msg : WEB_MESSAGE_REC)
    (caps : SendCaps) : Prop :=
  ∃ client, client? = some client ∧ gateOk client msg ∧
    ∃ frame, pipelineFrame client msg caps = some frame ∧
      (client.use_ssl = true ∧ client.ssl_channel ≠ none → caps.ssl_write frame ≥ 0)

/-- Stages at which the sender logs and aborts. -/
def isAbortStage (s : String) : Bool :=
  s == "client_null" || s == "not_ready" || s == "handshake_not_done" ||
  s == "handle_null" || s == "key_missing" || s == "encrypt_failed" ||
  s == "ssl_write_failed"

/-! ## Theorems: message type table (C9) -/

/-- Loop lemma for `sendToServerLoop`: it performs one send per
filtered client, in order. -/
theorem sendToServerLoop_eq (server : Nat) (msg : WEB_MESSAGE_REC) (caps : SendCaps)
    (clients : List WEB_CLIENT_REC) :
    sendToServerLoop server msg caps clients =
      (clients.filter
        (fun c => c.authenticated && (c.server == some server || c.wants_all_servers))).map
        (fun c => fe_web_send_message (some c) msg caps) := by
  induction clients with
  | nil => rfl
  | cons c rest ih =>
    by_cases h : c.authenticated && (c.server == some server || c.wants_all_servers)
    · simp [sendToServerLoop, List.filter_cons, h, ih]
    · simp [sendToServerLoop, List.filter_cons, h, ih]

/-- Loop lemma for `sendToAllLoop`. -/
theorem sendToAllLoop_eq (msg : WEB_MESSAGE_REC) (caps : SendCaps)
    (clients : List WEB_CLIENT_REC) :
    sendToAllLoop msg caps clients =
      (clients.filter (fun c => c.authenticated)).map
        (fun c => fe_web_send_message (some c) msg caps) := by
  induction clients with
  | nil => rfl
  | cons c rest ih =>
    by_cases h : c.authenticated
    · simp [sendToAllLoop, List.filter_cons, h, ih]
    · simp [sendToAllLoop, List.filter_cons, h, ih]

/-- C9: the type-to-name table is injective on the 23 known
message-type variants, never returns `"unknown"` for a known variant,
and there are exactly 23 variants; hence the serialized `type` field
uniquely identifies the variant. -/
theorem type_to_string_injective :
    Function.Injective fe_web_type_to_string ∧
    (∀ t : WEB_MESSAGE_TYPE, fe_web_type_to_string t ≠ "unknown") ∧
    Fintype.card WEB_MESSAGE_TYPE = 23 := by
  refine ⟨fun a b h => ?_, by decide, by decide⟩
  revert h
  revert a b
  decide

/-! ## Theorems: fanout (C3) -/

/-- C3: `send_to_server_clients` is a no-op for an absent server and
otherwise invokes send exactly once, in registry order, for each client
that is authenticated and either bound to the given server or wanting
all servers; `send_to_all_clients` invokes send exactly once per
authenticated client regardless of binding.  Each client's send result
is a function of that client alone, so a failing send for one client
cannot stop the iteration or affect delivery to the others. -/
theorem fanout_contract (msg : WEB_MESSAGE_REC) (caps : SendCaps)
    (clients : List WEB_CLIENT_REC) :
    fe_web_send_to_server_clients none msg caps clients = [] ∧
    (∀ server : Nat,
      fe_web_send_to_server_clients (some server) msg caps clients =
        (clients.filter
          (fun c => c.authenticated && (c.server == some server || c.wants_all_servers))).map
          (fun c => fe_web_send_message (some c) msg caps)) ∧
    fe_web_send_to_all_clients msg caps clients =
      (clients.filter (fun c => c.authenticated)).map
        (fun c => fe_web_send_message (some c) msg caps) :=
  ⟨rfl, fun server => sendToServerLoop_eq server msg caps clients,
   sendToAllLoop_eq msg caps clients⟩

/-! ## Theorems: ID generator (C5) -/

/-- Decimal digit rendering is injective on digits. -/
theorem digitChar_inj10 : ∀ a < 10, ∀ b < 10, Nat.digitChar a = Nat.digitChar b → a = b := by
  decide

/-- Four-digit zero-padded rendering is injective below 10000. -/
theorem pad4_inj {m n : Nat} (hm : m < 10000) (hn : n < 10000) (h : pad4 m = pad4 n) :
    m = n := by
  have h' := congrArg String.data h
  simp only [pad4] at h'
  have e1 := List.head_eq_of_cons_eq h'
  have t1 := List.tail_eq_of_cons_eq h'
  have e2 := List.head_eq_of_cons_eq t1
  have t2 := List.tail_eq_of_cons_eq t1
  have e3 := List.head_eq_of_cons_eq t2
  have t3 := List.tail_eq_of_cons_eq t2
  have e4 := List.head_eq_of_cons_eq t3
  have g1 := digitChar_inj10 _ (Nat.mod_lt _ (by norm_num)) _ (Nat.mod_lt _ (by norm_num)) e1
  have g2 := digitChar_inj10 _ (Nat.mod_lt _ (by norm_num)) _ (Nat.mod_lt _ (by norm_num)) e2
  have g3 := digitChar_inj10 _ (Nat.mod_lt _ (by norm_num)) _ (Nat.mod_lt _ (by norm_num)) e3
  have g4 := digitChar_inj10 _ (Nat.mod_lt _ (by norm_num)) _ (Nat.mod_lt _ (by norm_num)) e4
  omega

/-- Within one second and without wraparound, the generator returns
the ids for counters `c`, `c+1`, ... in order. -/
theorem idsFrom_no_wrap (now : Int) :
    ∀ (k c : Nat), c + k ≤ 10000 →
      idsFrom now c k = (List.range k).map (fun i => toString now ++ "-" ++ pad4 (c + i)) := by
  intro k
  induction k with
  | zero => intro c _; simp [idsFrom]
  | succ k ih =>
    intro c hc
    by_cases hw : c + 1 ≥ 10000
    · have hk : k = 0 := by omega
      subst hk
      simp [idsFrom, fe_web_generate_message_id, List.range_succ]
    · have h2 : (fe_web_generate_message_id now c).2 = c + 1 := by
        simp [fe_web_generate_message_id, hw]
      rw [List.range_succ_eq_map]
      simp only [idsFrom, h2, ih (c + 1) (by omega), List.map_cons, List.map_map]
      congr 1
      apply List.map_congr_left
      intro i hi
      have he : c + 1 + i = c + (i + 1) := by omega
      simp [Function.comp, he]

/-- Counter state after `k` calls. -/
theorem counterStep_iterate (k : Nat) :
    ∀ c, c < 10000 → c + k ≤ 10000 → counterStep^[k] c = (c + k) % 10000 := by
  induction k with
  | zero => intro c hc _; simp [Nat.mod_eq_of_lt hc]
  | succ k ih =>
    intro c hc h
    rw [Function.iterate_succ_apply]
    by_cases hw : c + 1 ≥ 10000
    · have hs : counterStep c = 0 := by simp [counterStep, hw]
      rw [hs, ih 0 (by omega) (by omega)]
      omega
    · have hs : counterStep c = c + 1 := by simp [counterStep, hw]
      rw [hs, ih (c + 1) (by omega) (by omega)]
      congr 1
      omega

/-- Splitting a run of generator calls. -/
theorem idsFrom_append (now : Int) (k m : Nat) :
    ∀ c, idsFrom now c (k + m) = idsFrom now c k ++ idsFrom now (counterStep^[k] c) m := by
  induction k with
  | zero => intro c; simp [idsFrom]
  | succ k ih =>
    intro c
    have hr : k + 1 + m = (k + m) + 1 := by omega
    rw [hr]
    simp only [idsFrom, ih, Function.iterate_succ_apply, List.cons_append]
    rfl

/-- Number of ids returned by a run. -/
theorem idsFrom_length (now : Int) (k : Nat) : ∀ c, (idsFrom now c k).length = k := by
  induction k with
  | zero => intro c; rfl
  | succ k ih => intro c; simp [idsFrom, ih]

/-- The first 10000 ids of a second are pairwise distinct. -/
theorem ids_nodup (now : Int) : (idsFrom now 0 10000).Nodup := by
  rw [idsFrom_no_wrap now 10000 0 (by omega)]
  refine List.Nodup.map_on ?_ (List.nodup_range 10000)
  intro x hx y hy hxy
  simp only [List.mem_range] at hx hy
  have h1 := congrArg String.data hxy
  rw [String.data_append, String.data_append, String.data_append, String.data_append] at h1
  have h2 := List.append_cancel_left h1
  have h3 : pad4 (0 + x) = pad4 (0 + y) := String.ext h2
  have := pad4_inj (by omega) (by omega) h3
  omega

/-- C5: the generator returns `"<unix-seconds>-<counter>"` with the
counter rendered as exactly 4 zero-padded digits, incremented modulo
10000 after each call; starting from the initial counter 0, 10000
consecutive calls within one second return pairwise distinct ids, and
the 10001st call returns the same id as the 1st. -/
theorem next_id_contract (now : Int) :
    (∀ c, c < 10000 →
      (fe_web_generate_message_id now c).1 = toString now ++ "-" ++ pad4 c ∧
      (pad4 c).length = 4 ∧
      (fe_web_generate_message_id now c).2 = (c + 1) % 10000) ∧
    (idsFrom now 0 10000).Nodup ∧
    (idsFrom now 0 10001).get? 10000 = some (toString now ++ "-" ++ pad4 0) ∧
    (idsFrom now 0 10001).get? 0 = some (toString now ++ "-" ++ pad4 0) := by
  refine ⟨fun c hc => ⟨rfl, ?_, ?_⟩, ids_nodup now, ?_, ?_⟩
  · simp [pad4, String.length]
  · by_cases hw : c + 1 ≥ 10000
    · have hc9 : c = 9999 := by omega
      subst hc9
      simp [fe_web_generate_message_id]
    · simp [fe_web_generate_message_id, hw, Nat.mod_eq_of_lt (show c + 1 < 10000 by omega)]
  · rw [show (10001 : Nat) = 10000 + 1 from by norm_num, idsFrom_append now 10000 1 0,
        counterStep_iterate 10000 0 (by norm_num) (by norm_num)]
    have hz : (0 + 10000) % 10000 = 0 := by norm_num
    rw [hz]
    have h1 : idsFrom now 0 1 = [toString now ++ "-" ++ pad4 0] := rfl
    rw [h1, List.get?_append_right (by simp [idsFrom_length]), idsFrom_length]
    norm_num
  · have h1 : (idsFrom now 0 10001).get? 0 =
        some (fe_web_generate_message_id now 0).1 := rfl
    rw [h1]
    rfl

/-! ## Theorems: escaper round-trip (C4) -/

/-- Reading back a hex digit produced by `digitChar` recovers its
value. -/
theorem hexVal_digitChar : ∀ d : Fin 16, hexVal (Nat.digitChar d.val) = some d.val := by
  decide

/-- Unfolding lemma: decoding at a short escape. -/
theorem jsonStringDecode_esc (e : Char) (he : ¬ e = 'u') (t : List Char) :
    jsonStringDecode ('\\' :: e :: t) =
      match escapeCharDe e with
      | some c2 => (jsonStringDecode t).map (fun l => c2 :: l)
      | none => none := by
  rw [jsonStringDecode.eq_def]
  dsimp only
  rw [if_pos rfl, if_neg he]

/-- Unfolding lemma: decoding at a `\u` escape. -/
theorem jsonStringDecode_u (h1 h2 h3 h4 : Char) (t : List Char) :
    jsonStringDecode ('\\' :: 'u' :: h1 :: h2 :: h3 :: h4 :: t) =
      match hexVal h1, hexVal h2, hexVal h3, hexVal h4 with
      | some a, some b, some v, some d =>
        (jsonStringDecode t).map
          (fun l => Char.ofNat (((a * 16 + b) * 16 + v) * 16 + d) :: l)
      | _, _, _, _ => none := by
  rw [jsonStringDecode]
  rw [if_pos rfl]
  rw [if_pos rfl]

/-- Unfolding lemma: decoding at an unescaped ordinary character. -/
theorem jsonStringDecode_plain (c : Char) (h1 : ¬ c = '\\')
    (h2 : ¬ (c = '"' ∨ c.toNat < 32)) (t : List Char) :
    jsonStringDecode (c :: t) = (jsonStringDecode t).map (fun l => c :: l) := by
  rw [jsonStringDecode.eq_def]
  dsimp only
  rw [if_neg h1, if_neg h2]

/-- Decoding the escape of one character consumes exactly that escape
and yields the character back. -/
theorem decode_escapeChar (c : Char) (t : List Char) :
    jsonStringDecode (escapeChar c ++ t) = (jsonStringDecode t).map (fun l => c :: l) := by
  by_cases h1 : c = '"'
  · subst h1; simp [escapeChar, jsonStringDecode_esc, escapeCharDe]
  by_cases h2 : c = '\\'
  · subst h2; simp [escapeChar, jsonStringDecode_esc, escapeCharDe]
  by_cases h3 : c = '\x08'
  · subst h3; simp [escapeChar, jsonStringDecode_esc, escapeCharDe]
  by_cases h4 : c = '\x0c'
  · subst h4; simp [escapeChar, jsonStringDecode_esc, escapeCharDe]
  by_cases h5 : c = '\n'
  · subst h5; simp [escapeChar, jsonStringDecode_esc, escapeCharDe]
  by_cases h6 : c = '\r'
  · subst h6; simp [escapeChar, jsonStringDecode_esc, escapeCharDe]
  by_cases h7 : c = '\t'
  · subst h7; simp [escapeChar, jsonStringDecode_esc, escapeCharDe]
  by_cases hu : c.toNat < 32
  · have hd1 : hexVal (Nat.digitChar (c.toNat / 16)) = some (c.toNat / 16) :=
      hexVal_digitChar ⟨c.toNat / 16, by omega⟩
    have hd2 : hexVal (Nat.digitChar (c.toNat % 16)) = some (c.toNat % 16) :=
      hexVal_digitChar ⟨c.toNat % 16, by omega⟩
    have h0 : hexVal '0' = some 0 := by decide
    simp [escapeChar, h1, h2, h3, h4, h5, h6, h7, hu, jsonStringDecode_u, hd1, hd2, h0,
          Nat.div_add_mod', Char.ofNat_toNat]
  · simp [escapeChar, h1, h2, h3, h4, h5, h6, h7, hu, jsonStringDecode_plain]

/-- Decoding the escape of a whole string yields the string back. -/
theorem decode_escapeChars (s : List Char) : jsonStringDecode (escapeChars s) = some s := by
  induction s with
  | nil => simp [escapeChars, jsonStringDecode]
  | cons c rest ih => simp [escapeChars, decode_escapeChar, ih]

/-- C4: the escaper is total — absent input yields the empty string —
and for every input string, a conforming JSON string decoder applied to
the escaped output yields back the original string. -/
theorem escape_roundtrip :
    fe_web_escape_json none = "" ∧
    ∀ s : String, jsonStringDecode (fe_web_escape_json (some s)).data = some s.data :=
  ⟨rfl, fun s => decode_escapeChars s.data⟩

/-! ## Theorems: serializer field structure (C1, C6, C7) -/

/-- Flattening of the optional-field append. -/
theorem appendOpt_flat (j : String) (o : Option String) (f : String → String) :
    appendOpt j o f = j ++ optPart o f := by
  cases o <;> simp [appendOpt, optPart, String.append_empty]

/-- Flattening of the conditional append. -/
theorem appendIf_flat (j : String) (b : Prop) [Decidable b] (s : String) :
    appendIf j b s = j ++ (if b then s else "") := by
  by_cases h : b <;> simp [appendIf, h, String.append_empty]

/-- Distribution of the comma-join over concatenation. -/
theorem joinTail_append (a b : List String) :
    joinTail (a ++ b) = joinTail a ++ joinTail b := by
  induction a with
  | nil => simp [joinTail, String.empty_append]
  | cons x xs ih => simp [joinTail, ih, String.append_assoc]

theorem litSplit_id : ("\"id\":\"" : String) = "\"" ++ "id" ++ "\":" ++ "\"" := by decide

theorem litSplit_close : ("\"," : String) = "\"" ++ "," := by decide

theorem litSplit_type : ("\"type\":\"" : String) = "\"" ++ "type" ++ "\":" ++ "\"" := by
  decide

theorem litSplit_rt :
    (",\"response_to\":\"" : String) = "," ++ "\"" ++ "response_to" ++ "\":" ++ "\"" := by
  decide

theorem litSplit_server :
    (",\"server\":\"" : String) = "," ++ "\"" ++ "server" ++ "\":" ++ "\"" := by decide

theorem litSplit_channel :
    (",\"channel\":\"" : String) = "," ++ "\"" ++ "channel" ++ "\":" ++ "\"" := by decide

theorem litSplit_nick :
    (",\"nick\":\"" : String) = "," ++ "\"" ++ "nick" ++ "\":" ++ "\"" := by decide

theorem litSplit_task :
    (",\"task\":\"" : String) = "," ++ "\"" ++ "task" ++ "\":" ++ "\"" := by decide

theorem litSplit_text :
    (",\"text\":\"" : String) = "," ++ "\"" ++ "text" ++ "\":" ++ "\"" := by decide

theorem litSplit_timestamp :
    (",\"timestamp\":" : String) = "," ++ "\"" ++ "timestamp" ++ "\":" := by decide

theorem litSplit_level :
    (",\"level\":" : String) = "," ++ "\"" ++ "level" ++ "\":" := by decide

theorem litSplit_is_own :
    (",\"is_own\":" : String) = "," ++ "\"" ++ "is_own" ++ "\":" := by decide

theorem litSplit_extra :
    (",\"extra\":\x7b" : String) = "," ++ "\"" ++ "extra" ++ "\":" ++ "\x7b" := by decide

/-- Bridging lemma: the comma-join contribution of one optional quoted
field equals the corresponding serializer append. -/
theorem per_opt_field (key : String) (o : Option String) :
    joinTail ((o.map
        (fun x => (key, "\"" ++ (fe_web_escape_json (some x) ++ "\"")))).toList.map
        renderField) =
      optPart o
        (fun x => "," ++ ("\"" ++ (key ++ ("\":" ++ ("\"" ++ (fe_web_escape_json (some x) ++ "\"")))))) := by
  cases o <;>
    simp [-String.reduceAppend, joinTail, optPart, renderField, String.append_empty, String.append_assoc]

/-- Bridging lemma for the `text`/`task` key choice: the serializer's
branch on the message type equals the join-side rendering with the key
chosen inside. -/
theorem task_text_pull (p : Prop) [Decidable p] (x : String) :
    (if p then ",\"task\":\"" ++ x else ",\"text\":\"" ++ x) =
      "," ++ ("\"" ++ ((if p then "task" else "text") ++ ("\":" ++ ("\"" ++ x)))) := by
  by_cases h : p <;>
    simp [-String.reduceAppend, h, litSplit_task, litSplit_text, String.append_assoc]

/-- Bridging lemma for the `level` field. -/
theorem bridge_level (lv : Int) :
    joinTail ((if lv = 0 then [] else [("level", toString lv)]).map renderField) =
      (if lv = 0 then "" else ",\"level\":" ++ toString lv) := by
  by_cases h : lv = 0 <;>
    simp [-String.reduceAppend, joinTail, renderField, h, litSplit_level, String.append_empty, String.append_assoc]

/-- Bridging lemma for the `is_own` field. -/
theorem bridge_is_own (ty : WEB_MESSAGE_TYPE) (io : Bool) :
    joinTail ((if ty = .WEB_MSG_MESSAGE then
        [("is_own", if io then "true" else "false")] else []).map renderField) =
      (if ty = .WEB_MSG_MESSAGE then
        ",\"is_own\":" ++ (if io then "true" else "false") else "") := by
  by_cases h : ty = .WEB_MSG_MESSAGE <;>
    simp [-String.reduceAppend, joinTail, renderField, h, litSplit_is_own, String.append_empty, String.append_assoc]

/-- Bridging lemma for the `extra` field. -/
theorem bridge_extra (ex : List (String × String)) :
    joinTail ((if ex = [] then []
        else [("extra", "\x7b" ++ (extraBody ex ++ "\x7d"))]).map renderField) =
      (if ex = [] then "" else ",\"extra\":\x7b" ++ (extraBody ex ++ "\x7d")) := by
  by_cases h : ex = [] <;>
    simp [-String.reduceAppend, joinTail, renderField, h, litSplit_extra, String.append_empty, String.append_assoc]

/-- Central refinement lemma: the serializer output is the brace-wrapped
comma-join of exactly the present fields, in the contract order. -/
theorem toJson_fields (msg : WEB_MESSAGE_REC) :
    fe_web_message_to_json msg =
      "\x7b" ++ fieldsJoin ((messageFieldPairs msg).map renderField) ++ "\x7d" := by
  obtain ⟨ty, id, ts, st, tg, nk, tx, rt, lv, io, ex⟩ := msg
  cases id <;>
    simp [-String.reduceAppend, fe_web_message_to_json, messageFieldPairs, appendOpt_flat, appendIf_flat,
          List.map_append, joinTail_append, per_opt_field, task_text_pull, bridge_level,
          bridge_is_own, bridge_extra, optPart, fieldsJoin, joinTail, renderField,
          litSplit_id, litSplit_close, litSplit_type, litSplit_rt, litSplit_server,
          litSplit_channel, litSplit_nick, litSplit_timestamp,
          String.append_assoc, String.append_empty, String.empty_append]

/-- C1: the serializer produces the brace-wrapped comma-join of exactly
the present fields in the contract order — id, type, response_to,
server, channel, nick, text-or-task, timestamp, level, is_own, extra —
each optional field included iff its condition holds, with commas only
between present fields and never dangling. -/
theorem serializer_field_contract (msg : WEB_MESSAGE_REC) :
    fe_web_message_to_json msg =
      "\x7b" ++ fieldsJoin ((messageFieldPairs msg).map renderField) ++ "\x7d" :=
  toJson_fields msg

theorem litSplit_valueq : ("\":\"" : String) = "\":" ++ "\"" := by decide

/-- Per-entry rendering of the extra map agrees with the spec-side
description. -/
theorem extraEntryJson_eq_spec (k v : String) : extraEntryJson k v = extraEntrySpec k v := by
  by_cases h : k = "params" ∧ v.data.head? = some '['
  · simp [-String.reduceAppend, extraEntryJson, extraEntrySpec, h, String.append_assoc]
  · simp [-String.reduceAppend, extraEntryJson, extraEntrySpec, h, litSplit_valueq,
          String.append_assoc]

/-- Unrolling of the first-flag fold over the extra entries. -/
theorem extraBody_foldl (entries : List (String × String)) (acc : String) :
    (entries.foldl
      (fun acc kv =>
        ((if acc.2 then acc.1 else acc.1 ++ ",") ++ extraEntryJson kv.1 kv.2, false))
      (acc, false)).1 =
      acc ++ joinTail (entries.map (fun kv => extraEntryJson kv.1 kv.2)) := by
  induction entries generalizing acc with
  | nil => simp [joinTail, String.append_empty]
  | cons kv rest ih => simp [ih, joinTail, String.append_assoc]

/-- The extra-object body is the comma-join of the per-entry
renderings, one per entry, in iteration order. -/
theorem extraBody_eq (entries : List (String × String)) :
    extraBody entries =
      fieldsJoin (entries.map (fun kv => extraEntrySpec kv.1 kv.2)) := by
  cases entries with
  | nil => rfl
  | cons kv rest =>
    simp only [extraBody, List.foldl_cons]
    rw [extraBody_foldl]
    simp [fieldsJoin, extraEntryJson_eq_spec, String.empty_append]

/-- Outside the extra field, no field of the serializer carries the key
`"extra"`. -/
theorem core_no_extra (msg : WEB_MESSAGE_REC) (h : msg.extra_data = []) :
    ∀ kv ∈ messageFieldPairs msg, kv.1 ≠ "extra" := by
  intro kv hkv
  by_cases hn : msg.type = .WEB_MSG_NICKLIST_UPDATE <;>
    simp [messageFieldPairs, h, hn, List.mem_append] at hkv <;>
    aesop

/-- C6: the serializer includes the `extra` object iff the extension
map is non-empty; when present it is the final field, a brace-wrapped
comma-join with exactly one rendering per entry — the key escaped, the
value raw iff the key is `"params"` and the value's first character is
`[`, otherwise escaped and quoted. -/
theorem extra_rendering (msg : WEB_MESSAGE_REC) :
    (msg.extra_data = [] → ∀ kv ∈ messageFieldPairs msg, kv.1 ≠ "extra") ∧
    (msg.extra_data ≠ [] →
      messageFieldPairs msg =
        messageFieldPairs { msg with extra_data := [] } ++
          [("extra",
            "\x7b" ++
              fieldsJoin (msg.extra_data.map (fun kv => extraEntrySpec kv.1 kv.2)) ++
              "\x7d")] ∧
      ∀ kv ∈ messageFieldPairs { msg with extra_data := [] }, kv.1 ≠ "extra") ∧
    (msg.extra_data.map (fun kv => extraEntrySpec kv.1 kv.2)).length =
      msg.extra_data.length ∧
    fe_web_message_to_json msg =
      "\x7b" ++ fieldsJoin ((messageFieldPairs msg).map renderField) ++ "\x7d" := by
  refine ⟨core_no_extra msg, fun h => ⟨?_, core_no_extra _ rfl⟩, by simp, toJson_fields msg⟩
  simp [messageFieldPairs, h, extraBody_eq, String.append_assoc]

/-- With a nicklist-update type, no serializer field carries the key
`"text"`. -/
theorem no_text_key (msg : WEB_MESSAGE_REC) (h : msg.type = .WEB_MSG_NICKLIST_UPDATE) :
    ∀ kv ∈ messageFieldPairs msg, kv.1 ≠ "text" := by
  intro kv hkv
  simp [messageFieldPairs, h, List.mem_append] at hkv
  aesop

/-- With any type other than nicklist-update, no serializer field
carries the key `"task"`. -/
theorem no_task_key (msg : WEB_MESSAGE_REC) (h : ¬ msg.type = .WEB_MSG_NICKLIST_UPDATE) :
    ∀ kv ∈ messageFieldPairs msg, kv.1 ≠ "task" := by
  intro kv hkv
  simp [messageFieldPairs, h, List.mem_append] at hkv
  aesop

/-- With text absent, neither the key `"task"` nor `"text"` appears. -/
theorem no_textask_key (msg : WEB_MESSAGE_REC) (h : msg.text = none) :
    ∀ kv ∈ messageFieldPairs msg, kv.1 ≠ "task" ∧ kv.1 ≠ "text" := by
  intro kv hkv
  by_cases hn : msg.type = .WEB_MSG_NICKLIST_UPDATE <;>
    simp [messageFieldPairs, h, hn, List.mem_append] at hkv <;> aesop

/-- C7: when text is present the serializer emits it under the key
`"task"` exactly for nicklist-update messages and under `"text"` for
every other type; when text is absent neither key appears. -/
theorem text_task_field (msg : WEB_MESSAGE_REC) :
    (∀ t, msg.text = some t →
      (msg.type = .WEB_MSG_NICKLIST_UPDATE →
        ("task", "\"" ++ fe_web_escape_json (some t) ++ "\"") ∈ messageFieldPairs msg ∧
        ∀ kv ∈ messageFieldPairs msg, kv.1 ≠ "text") ∧
      (msg.type ≠ .WEB_MSG_NICKLIST_UPDATE →
        ("text", "\"" ++ fe_web_escape_json (some t) ++ "\"") ∈ messageFieldPairs msg ∧
        ∀ kv ∈ messageFieldPairs msg, kv.1 ≠ "task")) ∧
    (msg.text = none →
      ∀ kv ∈ messageFieldPairs msg, kv.1 ≠ "task" ∧ kv.1 ≠ "text") ∧
    fe_web_message_to_json msg =
      "\x7b" ++ fieldsJoin ((messageFieldPairs msg).map renderField) ++ "\x7d" := by
  refine ⟨fun t ht => ⟨fun hn => ⟨?_, no_text_key msg hn⟩, fun hn => ⟨?_, no_task_key msg hn⟩⟩,
          no_textask_key msg, toJson_fields msg⟩
  · simp [messageFieldPairs, ht, hn, List.mem_append]
  · simp [messageFieldPairs, ht, hn, List.mem_append]

/-! ## Theorems: sender (C2, C8, C10) -/

/-- Characterization of the post-gating pipeline: it transmits exactly
when a frame is produced and, on the SSL path, the write does not fail;
an abort leaves the client unchanged; a successful send transmits the
pipeline frame and increments the counter. -/
theorem pipeline_char (client : WEB_CLIENT_REC) (msg : WEB_MESSAGE_REC) (caps : SendCaps)
    (ts : String) :
    (((fe_web_send_pipeline client msg caps ts).sent ≠ none) ↔
      ∃ frame, pipelineFrame client msg caps = some frame ∧
        (client.use_ssl = true ∧ client.ssl_channel ≠ none → caps.ssl_write frame ≥ 0)) ∧
    ((fe_web_send_pipeline client msg caps ts).sent = none →
      (fe_web_send_pipeline client msg caps ts).client = some client) ∧
    (∀ frame, (fe_web_send_pipeline client msg caps ts).sent = some frame →
      pipelineFrame client msg caps = some frame ∧
      (fe_web_send_pipeline client msg caps ts).client =
        some { client with messages_sent := client.messages_sent + 1 }) := by
  by_cases henc : client.encryption_enabled = true
  · cases hkey : caps.get_key with
    | none => simp [fe_web_send_pipeline, pipelineFrame, henc, hkey]
    | some key =>
      cases hcr : caps.encrypt (strBytes (fe_web_message_to_json msg)) key with
      | none => simp [fe_web_send_pipeline, pipelineFrame, henc, hkey, hcr]
      | some ct =>
        by_cases hssl : client.use_ssl = true ∧ client.ssl_channel ≠ none
        · by_cases hw : caps.ssl_write (caps.create_frame 2 ct) < 0
          · simp [fe_web_send_pipeline, fe_web_transmit, pipelineFrame, henc, hkey, hcr,
                  hssl, hw]
          · simp [fe_web_send_pipeline, fe_web_transmit, pipelineFrame, henc, hkey, hcr,
                  hssl, hw]
            omega
        · simp [fe_web_send_pipeline, fe_web_transmit, pipelineFrame, henc, hkey, hcr, hssl]
  · by_cases hssl : client.use_ssl = true ∧ client.ssl_channel ≠ none
    · by_cases hw : caps.ssl_write (caps.create_frame 1 (strBytes (fe_web_message_to_json msg))) < 0
      · simp [fe_web_send_pipeline, fe_web_transmit, pipelineFrame, henc, hssl, hw]
      · simp [fe_web_send_pipeline, fe_web_transmit, pipelineFrame, henc, hssl, hw]
        omega
    · simp [fe_web_send_pipeline, fe_web_transmit, pipelineFrame, henc, hssl]

/-- C2: a send transmits a frame and increments the client's
sent-message counter exactly when the client is present, gating passes
— for the authentication acknowledgement only `handshake_done` is
required (deliberately not `authenticated`), for every other type both
flags — the transport handle is present, and every pipeline stage (key
lookup, encryption, SSL write) succeeds; on every abort path nothing is
transmitted and the client, its counter included, is unchanged. -/
theorem send_gating (client? : Option WEB_CLIENT_REC) (msg : WEB_MESSAGE_REC)
    (caps : SendCaps) :
    (((fe_web_send_message client? msg caps).sent ≠ none) ↔ sendSpecOk client? msg caps) ∧
    ((fe_web_send_message client? msg caps).sent = none →
      (fe_web_send_message client? msg caps).client = client?) ∧
    (∀ client frame, client? = some client →
      (fe_web_send_message client? msg caps).sent = some frame →
      pipelineFrame client msg caps = some frame ∧
      (fe_web_send_message client? msg caps).client =
        some { client with messages_sent := client.messages_sent + 1 }) := by
  cases client? with
  | none => simp [fe_web_send_message, sendSpecOk]
  | some client =>
    obtain ⟨p1, p2, p3⟩ := pipeline_char client msg caps (fe_web_type_to_string msg.type)
    by_cases hau : msg.type = .WEB_MSG_AUTH_OK
    · by_cases hhs : client.handshake_done = false
      · simp [fe_web_send_message, hau, hhs, sendSpecOk, gateOk]
      · by_cases hh : client.handle = none
        · simp [fe_web_send_message, hau, hhs, hh, sendSpecOk, gateOk]
        · have hred : fe_web_send_message (some client) msg caps =
              fe_web_send_pipeline client msg caps (fe_web_type_to_string msg.type) := by
            simp [fe_web_send_message, hau, hhs, hh]
          rw [hred]
          refine ⟨?_, p2, fun client' frame hc hf => ?_⟩
          · rw [p1]
            simp [sendSpecOk, gateOk, hau, hhs, hh]
          · injection hc with hc'
            subst hc'
            exact p3 frame hf
    · by_cases hnr : client.authenticated = false ∨ client.handshake_done = false
      · rcases hnr with h | h
        · simp [fe_web_send_message, hau, h, sendSpecOk, gateOk]
        · simp [fe_web_send_message, hau, h, sendSpecOk, gateOk]
      · by_cases hh : client.handle = none
        · simp [fe_web_send_message, hau, hnr, hh, sendSpecOk, gateOk]
        · have hred : fe_web_send_message (some client) msg caps =
              fe_web_send_pipeline client msg caps (fe_web_type_to_string msg.type) := by
            simp [fe_web_send_message, hau, hnr, hh]
          rw [hred]
          refine ⟨?_, p2, fun client' frame hc hf => ?_⟩
          · rw [p1]
            simp [sendSpecOk, gateOk, hau, hh]
            intro x _ _
            revert hnr
            simp
          · injection hc with hc'
            subst hc'
            exact p3 frame hf

/-- Logging of pipeline aborts: exactly one abort-stage log line,
placed last, carrying the type name and the client identity. -/
theorem pipeline_abort_logging (client : WEB_CLIENT_REC) (msg : WEB_MESSAGE_REC)
    (caps : SendCaps) (ts : String)
    (h : (fe_web_send_pipeline client msg caps ts).sent = none) :
    ∃ pre l, (fe_web_send_pipeline client msg caps ts).logs = pre ++ [l] ∧
      (∀ x ∈ pre, isAbortStage x.stage = false) ∧
      isAbortStage l.stage = true ∧
      l.typeName = ts ∧ l.clientId = some client.id := by
  by_cases henc : client.encryption_enabled = true
  · cases hkey : caps.get_key with
    | none =>
      refine ⟨[⟨some client.id, ts, "sending", some (fe_web_message_to_json msg)⟩],
              ⟨some client.id, ts, "key_missing", none⟩, ?_, ?_, rfl, rfl, rfl⟩
      · simp [fe_web_send_pipeline, henc, hkey]
      · intro x hx
        simp at hx
        subst hx
        rfl
    | some key =>
      cases hcr : caps.encrypt (strBytes (fe_web_message_to_json msg)) key with
      | none =>
        refine ⟨[⟨some client.id, ts, "sending", some (fe_web_message_to_json msg)⟩],
                ⟨some client.id, ts, "encrypt_failed", none⟩, ?_, ?_, rfl, rfl, rfl⟩
        · simp [fe_web_send_pipeline, henc, hkey, hcr]
        · intro x hx
          simp at hx
          subst hx
          rfl
      | some ct =>
        by_cases hssl : client.use_ssl = true ∧ client.ssl_channel ≠ none
        · by_cases hw : caps.ssl_write (caps.create_frame 2 ct) < 0
          · refine ⟨[⟨some client.id, ts, "sending", some (fe_web_message_to_json msg)⟩,
                     ⟨some client.id, ts, "encrypted", none⟩],
                    ⟨some client.id, ts, "ssl_write_failed", none⟩, ?_, ?_, rfl, rfl, rfl⟩
            · simp [fe_web_send_pipeline, fe_web_transmit, henc, hkey, hcr, hssl, hw]
            · intro x hx
              simp at hx
              rcases hx with rfl | rfl <;> rfl
          · exfalso
            simp [fe_web_send_pipeline, fe_web_transmit, henc, hkey, hcr, hssl, hw] at h
        · exfalso
          simp [fe_web_send_pipeline, fe_web_transmit, henc, hkey, hcr, hssl] at h
  · by_cases hssl : client.use_ssl = true ∧ client.ssl_channel ≠ none
    · by_cases hw : caps.ssl_write
          (caps.create_frame 1 (strBytes (fe_web_message_to_json msg))) < 0
      · refine ⟨[⟨some client.id, ts, "sending", some (fe_web_message_to_json msg)⟩],
                ⟨some client.id, ts, "ssl_write_failed", none⟩, ?_, ?_, rfl, rfl, rfl⟩
        · simp [fe_web_send_pipeline, fe_web_transmit, henc, hssl, hw]
        · intro x hx
          simp at hx
          subst hx
          rfl
      · exfalso
        simp [fe_web_send_pipeline, fe_web_transmit, henc, hssl, hw] at h
    · exfalso
      simp [fe_web_send_pipeline, fe_web_transmit, henc, hssl] at h

/-- C8 (amended): every aborted send emits exactly one abort-stage log
line, placed last, always carrying the message type name; it carries
the client identity whenever a client was given — the absent-client
abort is the one abort whose log line has no client identity. -/
theorem send_abort_logging (client? : Option WEB_CLIENT_REC) (msg : WEB_MESSAGE_REC)
    (caps : SendCaps)
    (h : (fe_web_send_message client? msg caps).sent = none) :
    ∃ pre l, (fe_web_send_message client? msg caps).logs = pre ++ [l] ∧
      (∀ x ∈ pre, isAbortStage x.stage = false) ∧
      isAbortStage l.stage = true ∧
      l.typeName = fe_web_type_to_string msg.type ∧
      (∀ client, client? = some client → l.clientId = some client.id) := by
  cases client? with
  | none =>
    exact ⟨[], ⟨none, fe_web_type_to_string msg.type, "client_null", none⟩,
           rfl, by simp, rfl, rfl, by simp⟩
  | some client =>
    by_cases hau : msg.type = .WEB_MSG_AUTH_OK
    · by_cases hhs : client.handshake_done = false
      · have hred : fe_web_send_message (some client) msg caps =
            { client := some client, sent := none,
              logs := [⟨some client.id, fe_web_type_to_string msg.type,
                        "handshake_not_done", none⟩] } := by
          simp [fe_web_send_message, hau, hhs]
        rw [hred]
        exact ⟨[], _, rfl, by simp, rfl, rfl, fun c hc => by injection hc with hc; rw [hc]⟩
      · by_cases hh : client.handle = none
        · have hred : fe_web_send_message (some client) msg caps =
              { client := some client, sent := none,
                logs := [⟨some client.id, fe_web_type_to_string msg.type,
                          "handle_null", none⟩] } := by
            simp [fe_web_send_message, hau, hhs, hh]
          rw [hred]
          exact ⟨[], _, rfl, by simp, rfl, rfl, fun c hc => by injection hc with hc; rw [hc]⟩
        · have hred : fe_web_send_message (some client) msg caps =
              fe_web_send_pipeline client msg caps (fe_web_type_to_string msg.type) := by
            simp [fe_web_send_message, hau, hhs, hh]
          rw [hred] at h ⊢
          obtain ⟨pre, l, h1, h2, h3, h4, h5⟩ :=
            pipeline_abort_logging client msg caps (fe_web_type_to_string msg.type) h
          exact ⟨pre, l, h1, h2, h3, h4, fun c hc => by injection hc with hc; rw [← hc]; exact h5⟩
    · by_cases hnr : client.authenticated = false ∨ client.handshake_done = false
      · have hred : fe_web_send_message (some client) msg caps =
            { client := some client, sent := none,
              logs := [⟨some client.id, fe_web_type_to_string msg.type,
                        "not_ready", none⟩] } := by
          rcases hnr with hx | hx <;> simp [fe_web_send_message, hau, hx]
        rw [hred]
        exact ⟨[], _, rfl, by simp, rfl, rfl, fun c hc => by injection hc with hc; rw [hc]⟩
      · by_cases hh : client.handle = none
        · have hred : fe_web_send_message (some client) msg caps =
              { client := some client, sent := none,
                logs := [⟨some client.id, fe_web_type_to_string msg.type,
                          "handle_null", none⟩] } := by
            simp [fe_web_send_message, hau, hnr, hh]
          rw [hred]
          exact ⟨[], _, rfl, by simp, rfl, rfl, fun c hc => by injection hc with hc; rw [hc]⟩
        · have hred : fe_web_send_message (some client) msg caps =
              fe_web_send_pipeline client msg caps (fe_web_type_to_string msg.type) := by
            simp [fe_web_send_message, hau, hnr, hh]
          rw [hred] at h ⊢
          obtain ⟨pre, l, h1, h2, h3, h4, h5⟩ :=
            pipeline_abort_logging client msg caps (fe_web_type_to_string msg.type) h
          exact ⟨pre, l, h1, h2, h3, h4, fun c hc => by injection hc with hc; rw [← hc]; exact h5⟩

/-- C8 counterexample: the absent-client abort drops the message and
emits exactly one log line, and that log line carries no client
identity — refuting the claim that every abort log line includes the
client identity. -/
theorem send_abort_log_no_client_id :
    (fe_web_send_message none (fe_web_message_new .WEB_MSG_MESSAGE 0)
        ⟨none, fun _ _ => none, fun _ p => p, fun _ => -1⟩).sent = none ∧
    (fe_web_send_message none (fe_web_message_new .WEB_MSG_MESSAGE 0)
        ⟨none, fun _ _ => none, fun _ p => p, fun _ => -1⟩).logs.map LogLine.clientId =
      [none] :=
  ⟨rfl, rfl⟩

/-- Witness for the amended abort-logging theorem: a concrete
not-ready client. -/
theorem send_abort_logging_witness :
    ∃ pre l,
      (fe_web_send_message
        (some ⟨"c1", false, true, false, false, 0, none, none, none, false⟩)
        (fe_web_message_new .WEB_MSG_MESSAGE 0)
        ⟨none, fun _ _ => none, fun _ p => p, fun _ => -1⟩).logs = pre ++ [l] ∧
      (∀ x ∈ pre, isAbortStage x.stage = false) ∧
      isAbortStage l.stage = true ∧
      l.typeName = fe_web_type_to_string (fe_web_message_new .WEB_MSG_MESSAGE 0).type ∧
      (∀ client,
        (some ⟨"c1", false, true, false, false, 0, none, none, none, false⟩ :
          Option WEB_CLIENT_REC) = some client → l.clientId = some client.id) :=
  send_abort_logging _ _ _ rfl

/-- Head of the pipeline log: the plaintext JSON is logged first,
before any encryption interaction. -/
theorem pipeline_logs_head (client : WEB_CLIENT_REC) (msg : WEB_MESSAGE_REC)
    (caps : SendCaps) (ts : String) :
    ∃ rest, (fe_web_send_pipeline client msg caps ts).logs =
      ⟨some client.id, ts, "sending", some (fe_web_message_to_json msg)⟩ :: rest := by
  by_cases henc : client.encryption_enabled = true
  · cases hkey : caps.get_key with
    | none =>
      exact ⟨[⟨some client.id, ts, "key_missing", none⟩],
             by simp [fe_web_send_pipeline, henc, hkey]⟩
    | some key =>
      cases hcr : caps.encrypt (strBytes (fe_web_message_to_json msg)) key with
      | none =>
        exact ⟨[⟨some client.id, ts, "encrypt_failed", none⟩],
               by simp [fe_web_send_pipeline, henc, hkey, hcr]⟩
      | some ct =>
        by_cases hssl : client.use_ssl = true ∧ client.ssl_channel ≠ none
        · by_cases hw : caps.ssl_write (caps.create_frame 2 ct) < 0
          · exact ⟨[⟨some client.id, ts, "encrypted", none⟩,
                    ⟨some client.id, ts, "ssl_write_failed", none⟩],
                   by simp [fe_web_send_pipeline, fe_web_transmit, henc, hkey, hcr,
                            hssl, hw]⟩
          · exact ⟨[⟨some client.id, ts, "encrypted", none⟩,
                    ⟨some client.id, ts, "sent", none⟩],
                   by simp [fe_web_send_pipeline, fe_web_transmit, henc, hkey, hcr,
                            hssl, hw]⟩
        · exact ⟨[⟨some client.id, ts, "encrypted", none⟩,
                  ⟨some client.id, ts, "sent", none⟩],
                 by simp [fe_web_send_pipeline, fe_web_transmit, henc, hkey, hcr, hssl]⟩
  · by_cases hssl : client.use_ssl = true ∧ client.ssl_channel ≠ none
    · by_cases hw : caps.ssl_write
          (caps.create_frame 1 (strBytes (fe_web_message_to_json msg))) < 0
      · exact ⟨[⟨some client.id, ts, "ssl_write_failed", none⟩],
               by simp [fe_web_send_pipeline, fe_web_transmit, henc, hssl, hw]⟩
      · exact ⟨[⟨some client.id, ts, "sent", none⟩],
               by simp [fe_web_send_pipeline, fe_web_transmit, henc, hssl, hw]⟩
    · exact ⟨[⟨some client.id, ts, "sent", none⟩],
             by simp [fe_web_send_pipeline, fe_web_transmit, henc, hssl]⟩

/-- C10: for every client passing gating — encryption-enabled clients
included — the complete serialized plaintext JSON is handed to the log
sink as the first pipeline log line, before the key is consulted or any
encryption is applied, whatever the capabilities do afterwards. -/
theorem plaintext_logged (client : WEB_CLIENT_REC) (msg : WEB_MESSAGE_REC)
    (caps : SendCaps) (hgate : gateOk client msg) :
    ∃ rest, (fe_web_send_message (some client) msg caps).logs =
      ⟨some client.id, fe_web_type_to_string msg.type, "sending",
        some (fe_web_message_to_json msg)⟩ :: rest := by
  obtain ⟨hg, hh⟩ := hgate
  by_cases hau : msg.type = .WEB_MSG_AUTH_OK
  · rw [if_pos hau] at hg
    have hred : fe_web_send_message (some client) msg caps =
        fe_web_send_pipeline client msg caps (fe_web_type_to_string msg.type) := by
      simp [fe_web_send_message, hau, hg, hh]
    rw [hred]
    exact pipeline_logs_head client msg caps (fe_web_type_to_string msg.type)
  · rw [if_neg hau] at hg
    have hred : fe_web_send_message (some client) msg caps =
        fe_web_send_pipeline client msg caps (fe_web_type_to_string msg.type) := by
      simp [fe_web_send_message, hau, hg.1, hg.2, hh]
    rw [hred]
    exact pipeline_logs_head client msg caps (fe_web_type_to_string msg.type)

/-- Witness for the plaintext-logging theorem: a concrete
encryption-enabled, gated client whose key lookup fails. -/
theorem plaintext_logged_witness :
    ∃ rest,
      (fe_web_send_message
        (some ⟨"c1", true, true, false, true, 0, some (), none, none, false⟩)
        (fe_web_message_new .WEB_MSG_MESSAGE 0)
        ⟨none, fun _ _ => none, fun _ p => p, fun _ => -1⟩).logs =
      ⟨some "c1",
        fe_web_type_to_string (fe_web_message_new .WEB_MSG_MESSAGE 0).type,
        "sending",
        some (fe_web_message_to_json (fe_web_message_new .WEB_MSG_MESSAGE 0))⟩ :: rest :=
  plaintext_logged _ _ _ (by constructor <;> simp [fe_web_message_new])

/-- Witness for the send gating theorem: a concrete authenticated,
handshaken plain-transport client actually transmits. -/
theorem send_gating_witness :
    (fe_web_send_message
      (some ⟨"c1", true, true, false, false, 0, some (), none, none, false⟩)
      (fe_web_message_new .WEB_MSG_MESSAGE 0)
      ⟨none, fun _ _ => none, fun _ p => p, fun _ => -1⟩).sent ≠ none :=
  (send_gating _ _ _).1.mpr
    ⟨⟨"c1", true, true, false, false, 0, some (), none, none, false⟩, rfl,
     by simp [gateOk, fe_web_message_new],
     strBytes (fe_web_message_to_json (fe_web_message_new .WEB_MSG_MESSAGE 0)),
     rfl,
     by simp⟩

/-- Witness for the ID generator contract at the initial counter. -/
theorem next_id_contract_witness :
    (fe_web_generate_message_id 0 0).1 = toString (0 : Int) ++ "-" ++ pad4 0 ∧
    (pad4 0).length = 4 ∧
    (fe_web_generate_message_id 0 0).2 = (0 + 1) % 10000 :=
  (next_id_contract 0).1 0 (by norm_num)

/-- Witness for the extra-map rendering: one `"params"` entry holding a
raw JSON array. -/
theorem extra_rendering_witness :
    messageFieldPairs
        { fe_web_message_new .WEB_MSG_MESSAGE 0 with
            extra_data := [("params", "[1,2,3]")] } =
      messageFieldPairs
        { { fe_web_message_new .WEB_MSG_MESSAGE 0 with
              extra_data := [("params", "[1,2,3]")] } with extra_data := [] } ++
        [("extra",
          "\x7b" ++
            fieldsJoin
              ((({ fe_web_message_new .WEB_MSG_MESSAGE 0 with
                    extra_data := [("params", "[1,2,3]")] } :
                  WEB_MESSAGE_REC).extra_data).map
                (fun kv => extraEntrySpec kv.1 kv.2)) ++
            "\x7d")] ∧
    ∀ kv ∈ messageFieldPairs
        { { fe_web_message_new .WEB_MSG_MESSAGE 0 with
              extra_data := [("params", "[1,2,3]")] } with extra_data := [] },
      kv.1 ≠ "extra" :=
  (extra_rendering _).2.1 (by simp)

/-- Witness for the text/task key choice: a nicklist-update message
with text renders the `task` key and no `text` key. -/
theorem text_task_field_witness :
    ("task", "\"" ++ fe_web_escape_json (some "hi") ++ "\"") ∈
      messageFieldPairs
        { fe_web_message_new .WEB_MSG_NICKLIST_UPDATE 0 with text := some "hi" } ∧
    ∀ kv ∈ messageFieldPairs
        { fe_web_message_new .WEB_MSG_NICKLIST_UPDATE 0 with text := some "hi" },
      kv.1 ≠ "text" :=
  ((text_task_field _).1 "hi" rfl).1 rfl
